import Mathlib

/-!
Verification of the whitelist-frontend view controller
(src/pages/index.jsx) via a shallow embedding.

The page is a single React component.  Each async handler
(`getProviderOrSigner`, `addAddressToWhitelist`, `getNumberOfWhitelisted`,
`checkIfAddressInWhitelist`, `connectWallet`) is embedded as a pure
function from a predetermined environment of external-call outcomes and a
world (the React state plus whether a wallet connection handle exists) to
a new world together with a trace of observable events (wallet prompts,
alerts, console logs, state-setter calls, contract calls).  `renderButton`
is embedded as a pure function from the React state to one of the four UI
variants.
-/

/-- Errors that an operation can fail with.  `wrongNetwork` is the
`Error("Change network to Rinkeby")` thrown at the chain-id check;
`externalError` stands for any error raised by an external collaborator
(wallet rejection, RPC failure, contract revert, failed wait). -/
inductive ErrorV where
  | wrongNetwork : ErrorV
  | externalError : ErrorV
deriving DecidableEq, Repr

/-- The two kinds of chain accessor `getProviderOrSigner` can return:
a read-only `Web3Provider` or a `Signer`. -/
inductive ChainAccessor where
  | readOnly : ChainAccessor
  | signing : ChainAccessor
deriving DecidableEq, Repr

/-- Observable events of one execution, in order. -/
inductive Event where
  | prompt : Event
  | alert : String → Event
  | consoleError : ErrorV → Event
  | submit : Event
  | txWait : Event
  | setLoading : Bool → Event
  | setNumberOfWhitelisted : Nat → Event
  | setJoinedWhitelist : Bool → Event
  | setWalletConnected : Bool → Event
  | readAddress : String → Event
  | queryMembership : String → Event
deriving DecidableEq, Repr

/-- The React state of the component: the four `useState` hooks. -/
structure UIState where
  walletConnected : Bool
  joinedWhitelist : Bool
  loading : Bool
  numberOfWhitelisted : Nat
deriving DecidableEq, Repr

/-- The world: the React state together with whether a wallet connection
handle already exists.  Per the external-interface description, the
wallet connector prompts the user only when no connection handle exists
yet; a handle, once created, persists for the lifetime of the page. -/
structure World where
  ui : UIState
  hasConnection : Bool
deriving DecidableEq, Repr

/-- Predetermined outcomes of the external calls made during one
execution: whether `web3Modal.connect()` succeeds, whether and with which
chain id `getNetwork()` answers, whether `signer.getAddress()` succeeds
and which address it returns, whether the transaction submission and its
`tx.wait()` succeed, and the outcomes of the two contract reads. -/
structure Env where
  connectOk : Bool
  networkOk : Bool
  chainId : Nat
  getAddressOk : Bool
  callerAddress : String
  submitOk : Bool
  waitOk : Bool
  countOk : Bool
  countValue : Nat
  membershipOk : Bool
  membership : String → Bool

/-- Embedding of `getProviderOrSigner` (src/pages/index.jsx lines 33 to
51): connect through the web3 modal (prompting if no handle exists yet),
read the network, alert and throw when the chain id is not 4, otherwise
return the signer or the provider.  It returns the result, the updated
world, and the event trace. -/
def getProviderOrSigner (env : Env) (w : World) (needSigner : Bool := false) :
    Except ErrorV ChainAccessor × World × List Event :=
  let promptEvs : List Event := if w.hasConnection then [] else [Event.prompt]
  if env.connectOk then
    let w1 : World := { w with hasConnection := true }
    if env.networkOk then
      if env.chainId ≠ 4 then
        (Except.error ErrorV.wrongNetwork, w1,
          promptEvs ++ [Event.alert "Change the network to Rinkeby"])
      else
        (Except.ok (if needSigner then ChainAccessor.signing else ChainAccessor.readOnly),
          w1, promptEvs)
    else
      (Except.error ErrorV.externalError, w1, promptEvs)
  else
    (Except.error ErrorV.externalError, w, promptEvs)

/-- Embedding of `getNumberOfWhitelisted` (lines 83 to 101): obtain a
provider, read `numAddressesWhitelisted()`, and set
`numberOfWhitelisted`; any error is caught and logged, leaving the state
untouched. -/
def getNumberOfWhitelisted (env : Env) (w : World) : World × List Event :=
  let g := getProviderOrSigner env w
  match g.1 with
  | Except.error e => (g.2.1, g.2.2 ++ [Event.consoleError e])
  | Except.ok _ =>
      if env.countOk then
        ({ g.2.1 with ui := { g.2.1.ui with numberOfWhitelisted := env.countValue } },
          g.2.2 ++ [Event.setNumberOfWhitelisted env.countValue])
      else
        (g.2.1, g.2.2 ++ [Event.consoleError ErrorV.externalError])

/-- Embedding of `checkIfAddressInWhitelist` (lines 106 to 127): obtain a
signer, read the caller's address from it, query
`whitelistedAddress(address)`, and set `joinedWhitelist` to the answer;
any error is caught and logged, leaving the state untouched. -/
def checkIfAddressInWhitelist (env : Env) (w : World) : World × List Event :=
  let g := getProviderOrSigner env w true
  match g.1 with
  | Except.error e => (g.2.1, g.2.2 ++ [Event.consoleError e])
  | Except.ok _ =>
      if env.getAddressOk then
        if env.membershipOk then
          ({ g.2.1 with ui :=
              { g.2.1.ui with joinedWhitelist := env.membership env.callerAddress } },
            g.2.2 ++ [Event.readAddress env.callerAddress,
              Event.queryMembership env.callerAddress,
              Event.setJoinedWhitelist (env.membership env.callerAddress)])
        else
          (g.2.1, g.2.2 ++ [Event.readAddress env.callerAddress,
            Event.queryMembership env.callerAddress,
            Event.consoleError ErrorV.externalError])
      else
        (g.2.1, g.2.2 ++ [Event.consoleError ErrorV.externalError])

/-- Embedding of `addAddressToWhitelist` (lines 56 to 78): obtain a
signer, submit `addAddressToWhitelist()`, then `setLoading(true)`, await
`tx.wait()`, `setLoading(false)`, and refresh the count; any error is
caught and logged.  Note the catch handler performs no state update, so a
failing `tx.wait()` leaves `loading` at the value it had when the error
was thrown. -/
def addAddressToWhitelist (env : Env) (w : World) : World × List Event :=
  let g := getProviderOrSigner env w true
  match g.1 with
  | Except.error e => (g.2.1, g.2.2 ++ [Event.consoleError e])
  | Except.ok _ =>
      if env.submitOk then
        let w2 : World := { g.2.1 with ui := { g.2.1.ui with loading := true } }
        if env.waitOk then
          let w3 : World := { w2 with ui := { w2.ui with loading := false } }
          let r := getNumberOfWhitelisted env w3
          (r.1, g.2.2 ++ [Event.submit, Event.setLoading true, Event.txWait,
            Event.setLoading false] ++ r.2)
        else
          (w2, g.2.2 ++ [Event.submit, Event.setLoading true,
            Event.consoleError ErrorV.externalError])
      else
        (g.2.1, g.2.2 ++ [Event.consoleError ErrorV.externalError])

/-- Embedding of `connectWallet` (lines 132 to 144): obtain a provider,
set `walletConnected` to true, then run the membership check and the
count refresh; any error is caught and logged. -/
def connectWallet (env : Env) (w : World) : World × List Event :=
  let g := getProviderOrSigner env w
  match g.1 with
  | Except.error e => (g.2.1, g.2.2 ++ [Event.consoleError e])
  | Except.ok _ =>
      let w2 : World := { g.2.1 with ui := { g.2.1.ui with walletConnected := true } }
      let r1 := checkIfAddressInWhitelist env w2
      let r2 := getNumberOfWhitelisted env r1.1
      (r2.1, g.2.2 ++ [Event.setWalletConnected true] ++ r1.2 ++ r2.2)

/-- The four UI variants `renderButton` can produce. -/
inductive ButtonVariant where
  | connectButton : ButtonVariant
  | thanksMessage : ButtonVariant
  | loadingButton : ButtonVariant
  | joinButton : ButtonVariant
deriving DecidableEq, Repr

/-- The handlers a rendered variant can invoke on click. -/
inductive UserAction where
  | runConnectWallet : UserAction
  | runAddAddressToWhitelist : UserAction
deriving DecidableEq, Repr

/-- The onClick handler attached to each variant in the JSX: the thanks
message is a plain div and the loading button has no handler at all. -/
def variantAction : ButtonVariant → Option UserAction
  | ButtonVariant.connectButton => some UserAction.runConnectWallet
  | ButtonVariant.thanksMessage => none
  | ButtonVariant.loadingButton => none
  | ButtonVariant.joinButton => some UserAction.runAddAddressToWhitelist

/-- Embedding of `renderButton` (lines 149 to 174). -/
def renderButton (s : UIState) : ButtonVariant :=
  if s.walletConnected then
    if s.joinedWhitelist then ButtonVariant.thanksMessage
    else if s.loading then ButtonVariant.loadingButton
    else ButtonVariant.joinButton
  else ButtonVariant.connectButton

/-- The operations the page can perform: the mount effect (lines 179 to
191), which runs `connectWallet` only while `walletConnected` is false,
and a click on the rendered button, which dispatches through the handler
attached to the current variant. -/
inductive Op where
  | effectRun : Op
  | click : Op
deriving DecidableEq, Repr

/-- One step of the page. -/
def runOp (op : Op) (env : Env) (w : World) : World × List Event :=
  match op with
  | Op.effectRun => if w.ui.walletConnected then (w, []) else connectWallet env w
  | Op.click =>
      match variantAction (renderButton w.ui) with
      | some UserAction.runConnectWallet => connectWallet env w
      | some UserAction.runAddAddressToWhitelist => addAddressToWhitelist env w
      | none => (w, [])

/-- The initial world: all four state hooks at their `useState` defaults
and no wallet connection handle yet. -/
def initialWorld : World :=
  { ui := { walletConnected := false, joinedWhitelist := false,
            loading := false, numberOfWhitelisted := 0 },
    hasConnection := false }

/-- Worlds reachable from the initial world by page operations, each step
under an arbitrary environment of external outcomes. -/
inductive Reachable : World → Prop where
  | init : Reachable initialWorld
  | step (op : Op) (env : Env) {w : World} :
      Reachable w → Reachable (runOp op env w).1

/-- Path lemma: when the modal connection fails, `getProviderOrSigner`
fails with an external error and touches nothing but the prompt. -/
theorem gps_connectFail (env : Env) (w : World) (b : Bool)
    (h : env.connectOk = false) :
    getProviderOrSigner env w b =
      (Except.error ErrorV.externalError, w,
        if w.hasConnection then [] else [Event.prompt]) := by
  simp [getProviderOrSigner, h]

/-- Path lemma: when the connection succeeds but the network read fails. -/
theorem gps_networkFail (env : Env) (w : World) (b : Bool)
    (h1 : env.connectOk = true) (h2 : env.networkOk = false) :
    getProviderOrSigner env w b =
      (Except.error ErrorV.externalError, { w with hasConnection := true },
        if w.hasConnection then [] else [Event.prompt]) := by
  simp [getProviderOrSigner, h1, h2]

/-- Path lemma: on a chain other than 4, `getProviderOrSigner` alerts and
fails with the wrong-network error. -/
theorem gps_wrongChain (env : Env) (w : World) (b : Bool)
    (h1 : env.connectOk = true) (h2 : env.networkOk = true)
    (h3 : env.chainId ≠ 4) :
    getProviderOrSigner env w b =
      (Except.error ErrorV.wrongNetwork, { w with hasConnection := true },
        (if w.hasConnection then [] else [Event.prompt]) ++
          [Event.alert "Change the network to Rinkeby"]) := by
  simp [getProviderOrSigner, h1, h2, h3]

/-- Path lemma: on chain 4 with all calls succeeding,
`getProviderOrSigner` returns the requested accessor. -/
theorem gps_ok (env : Env) (w : World) (b : Bool)
    (h1 : env.connectOk = true) (h2 : env.networkOk = true)
    (h3 : env.chainId = 4) :
    getProviderOrSigner env w b =
      (Except.ok (if b then ChainAccessor.signing else ChainAccessor.readOnly),
        { w with hasConnection := true },
        if w.hasConnection then [] else [Event.prompt]) := by
  simp [getProviderOrSigner, h1, h2, h3]

/-- An environment in which every external call succeeds on chain 4. -/
def envAllOk : Env :=
  { connectOk := true, networkOk := true, chainId := 4,
    getAddressOk := true, callerAddress := "0xabc",
    submitOk := true, waitOk := true,
    countOk := true, countValue := 3,
    membershipOk := true, membership := fun _ => false }

/-- An environment in which the transaction is submitted successfully but
its confirmation wait fails. -/
def envWaitFails : Env :=
  { envAllOk with waitOk := false }

/-- An environment in which the wallet is connected to chain 1 instead of
the required chain 4. -/
def envChain1 : Env :=
  { envAllOk with chainId := 1 }

/-- An environment in which the wallet connection itself fails, as when
the user rejects the wallet prompt. -/
def envRejected : Env :=
  { envAllOk with connectOk := false }

/-- C2: for every UIState, `renderButton` produces exactly one of the
four variants, chosen by priority: connect affordance when not connected;
membership confirmation when connected and a member (taking precedence
over the pending check); inert loading affordance when connected, not a
member, and loading; join affordance otherwise. -/
theorem C2_renderTotal (s : UIState) :
    (s.walletConnected = false → renderButton s = ButtonVariant.connectButton) ∧
    (s.walletConnected = true → s.joinedWhitelist = true →
      renderButton s = ButtonVariant.thanksMessage) ∧
    (s.walletConnected = true → s.joinedWhitelist = false → s.loading = true →
      renderButton s = ButtonVariant.loadingButton) ∧
    (s.walletConnected = true → s.joinedWhitelist = false → s.loading = false →
      renderButton s = ButtonVariant.joinButton) ∧
    variantAction ButtonVariant.connectButton = some UserAction.runConnectWallet ∧
    variantAction ButtonVariant.thanksMessage = none ∧
    variantAction ButtonVariant.loadingButton = none ∧
    variantAction ButtonVariant.joinButton = some UserAction.runAddAddressToWhitelist := by
  rcases s with ⟨wc, jw, ld, n⟩
  cases wc <;> cases jw <;> cases ld <;>
    simp [renderButton, variantAction]

/-- C2 witness: the four variants at concrete states; the membership
check takes precedence over the pending check in the second state. -/
theorem C2_witness :
    renderButton ⟨false, false, false, 0⟩ = ButtonVariant.connectButton ∧
    renderButton ⟨true, true, true, 5⟩ = ButtonVariant.thanksMessage ∧
    renderButton ⟨true, false, true, 5⟩ = ButtonVariant.loadingButton ∧
    renderButton ⟨true, false, false, 5⟩ = ButtonVariant.joinButton :=
  ⟨(C2_renderTotal ⟨false, false, false, 0⟩).1 rfl,
   (C2_renderTotal ⟨true, true, true, 5⟩).2.1 rfl rfl,
   (C2_renderTotal ⟨true, false, true, 5⟩).2.2.1 rfl rfl rfl,
   (C2_renderTotal ⟨true, false, false, 5⟩).2.2.2.1 rfl rfl rfl⟩

/-- C7: `getProviderOrSigner` fails with the wrong-network error exactly
when the connection and network read succeed and the chain id differs
from 4; on chain 4 it returns the signing accessor when a signer is
requested and the read-only accessor otherwise; and it never mutates the
React state. -/
theorem C7_accessorKind (env : Env) (w : World) (b : Bool) :
    ((getProviderOrSigner env w b).1 = Except.error ErrorV.wrongNetwork ↔
      env.connectOk = true ∧ env.networkOk = true ∧ env.chainId ≠ 4) ∧
    (env.connectOk = true → env.networkOk = true → env.chainId = 4 →
      (getProviderOrSigner env w b).1 =
        Except.ok (if b then ChainAccessor.signing else ChainAccessor.readOnly)) ∧
    (getProviderOrSigner env w b).2.1.ui = w.ui := by
  cases hc : env.connectOk
  · rw [gps_connectFail env w b hc]
    simp [hc]
  · cases hn : env.networkOk
    · rw [gps_networkFail env w b hc hn]
      simp [hn]
    · by_cases h4 : env.chainId = 4
      · rw [gps_ok env w b hc hn h4]
        simp [h4]
      · rw [gps_wrongChain env w b hc hn h4]
        simp [hc, hn, h4]

/-- C7 witness: concrete accessor kinds on chain 4 and the wrong-network
failure on chain 1. -/
theorem C7_witness :
    (getProviderOrSigner envAllOk initialWorld true).1 =
      Except.ok ChainAccessor.signing ∧
    (getProviderOrSigner envAllOk initialWorld false).1 =
      Except.ok ChainAccessor.readOnly ∧
    (getProviderOrSigner envChain1 initialWorld true).1 =
      Except.error ErrorV.wrongNetwork := by
  refine ⟨?_, ?_, ?_⟩
  · exact (C7_accessorKind envAllOk initialWorld true).2.1 rfl rfl rfl
  · exact (C7_accessorKind envAllOk initialWorld false).2.1 rfl rfl rfl
  · exact (C7_accessorKind envChain1 initialWorld true).1.mpr ⟨rfl, rfl, by decide⟩

/-- C4: on a wrong network with the connection and network read
succeeding, `getProviderOrSigner` fails with the wrong-network error, the
user-facing alert appears in the `connectWallet` trace, and
`connectWallet` leaves the entire React state unchanged. -/
theorem C4_wrongNetworkConnect (env : Env) (w : World)
    (hc : env.connectOk = true) (hn : env.networkOk = true)
    (h4 : env.chainId ≠ 4) :
    (getProviderOrSigner env w).1 = Except.error ErrorV.wrongNetwork ∧
    Event.alert "Change the network to Rinkeby" ∈ (connectWallet env w).2 ∧
    (connectWallet env w).1.ui = w.ui := by
  have hg := gps_wrongChain env w false hc hn h4
  refine ⟨by rw [hg], ?_, ?_⟩
  · simp only [connectWallet, hg]
    simp
  · simp only [connectWallet, hg]

/-- C4 witness: connecting on chain 1 from the initial world raises the
wrong-network error and leaves `walletConnected` false. -/
theorem C4_witness :
    (getProviderOrSigner envChain1 initialWorld).1 =
      Except.error ErrorV.wrongNetwork ∧
    Event.alert "Change the network to Rinkeby" ∈
      (connectWallet envChain1 initialWorld).2 ∧
    (connectWallet envChain1 initialWorld).1.ui.walletConnected = false := by
  have h := C4_wrongNetworkConnect envChain1 initialWorld rfl rfl (by decide)
  exact ⟨h.1, h.2.1, by rw [h.2.2]; rfl⟩

/-- State characterization of `getNumberOfWhitelisted`: it sets
`numberOfWhitelisted` exactly when every call on its path succeeds, and
otherwise leaves the React state untouched. -/
theorem getNumberOfWhitelisted_ui (env : Env) (w : World) :
    (getNumberOfWhitelisted env w).1.ui =
      if env.connectOk = true ∧ env.networkOk = true ∧ env.chainId = 4 ∧
          env.countOk = true then
        { w.ui with numberOfWhitelisted := env.countValue }
      else w.ui := by
  cases hc : env.connectOk
  · simp [getNumberOfWhitelisted, gps_connectFail env w false hc, hc]
  · cases hn : env.networkOk
    · simp [getNumberOfWhitelisted, gps_networkFail env w false hc hn, hn]
    · by_cases h4 : env.chainId = 4
      · cases hk : env.countOk
        · simp [getNumberOfWhitelisted, gps_ok env w false hc hn h4, hk]
        · simp [getNumberOfWhitelisted, gps_ok env w false hc hn h4, hc, hn, h4, hk]
      · simp [getNumberOfWhitelisted, gps_wrongChain env w false hc hn h4, h4]

/-- `getNumberOfWhitelisted` establishes the connection handle whenever
the modal connection succeeds and never destroys an existing one. -/
theorem getNumberOfWhitelisted_hasConnection (env : Env) (w : World) :
    (getNumberOfWhitelisted env w).1.hasConnection =
      (env.connectOk || w.hasConnection) := by
  cases hc : env.connectOk
  · simp [getNumberOfWhitelisted, gps_connectFail env w false hc]
  · cases hn : env.networkOk
    · simp [getNumberOfWhitelisted, gps_networkFail env w false hc hn]
    · by_cases h4 : env.chainId = 4
      · cases hk : env.countOk <;>
          simp [getNumberOfWhitelisted, gps_ok env w false hc hn h4, hk]
      · simp [getNumberOfWhitelisted, gps_wrongChain env w false hc hn h4]

/-- State characterization of `checkIfAddressInWhitelist`: it sets
`joinedWhitelist` to the contract's answer for the caller's address
exactly when every call on its path succeeds, and otherwise leaves the
React state untouched. -/
theorem checkIfAddressInWhitelist_ui (env : Env) (w : World) :
    (checkIfAddressInWhitelist env w).1.ui =
      if env.connectOk = true ∧ env.networkOk = true ∧ env.chainId = 4 ∧
          env.getAddressOk = true ∧ env.membershipOk = true then
        { w.ui with joinedWhitelist := env.membership env.callerAddress }
      else w.ui := by
  cases hc : env.connectOk
  · simp [checkIfAddressInWhitelist, gps_connectFail env w true hc, hc]
  · cases hn : env.networkOk
    · simp [checkIfAddressInWhitelist, gps_networkFail env w true hc hn, hn]
    · by_cases h4 : env.chainId = 4
      · cases ha : env.getAddressOk
        · simp [checkIfAddressInWhitelist, gps_ok env w true hc hn h4, ha]
        · cases hm : env.membershipOk
          · simp [checkIfAddressInWhitelist, gps_ok env w true hc hn h4, ha, hm]
          · simp [checkIfAddressInWhitelist, gps_ok env w true hc hn h4,
              hc, hn, h4, ha, hm]
      · simp [checkIfAddressInWhitelist, gps_wrongChain env w true hc hn h4, h4]

/-- `checkIfAddressInWhitelist` establishes the connection handle
whenever the modal connection succeeds and never destroys one. -/
theorem checkIfAddressInWhitelist_hasConnection (env : Env) (w : World) :
    (checkIfAddressInWhitelist env w).1.hasConnection =
      (env.connectOk || w.hasConnection) := by
  cases hc : env.connectOk
  · simp [checkIfAddressInWhitelist, gps_connectFail env w true hc]
  · cases hn : env.networkOk
    · simp [checkIfAddressInWhitelist, gps_networkFail env w true hc hn]
    · by_cases h4 : env.chainId = 4
      · cases ha : env.getAddressOk
        · simp [checkIfAddressInWhitelist, gps_ok env w true hc hn h4, ha]
        · cases hm : env.membershipOk <;>
            simp [checkIfAddressInWhitelist, gps_ok env w true hc hn h4, ha, hm]
      · simp [checkIfAddressInWhitelist, gps_wrongChain env w true hc hn h4]

/-- State characterization of `addAddressToWhitelist`: if the submission
path succeeds, `loading` ends false after a successful wait (with the
count refreshed when that read succeeds) but remains true when the wait
fails; if the submission path fails, the React state is untouched. -/
theorem addAddressToWhitelist_ui (env : Env) (w : World) :
    (addAddressToWhitelist env w).1.ui =
      if env.connectOk = true ∧ env.networkOk = true ∧ env.chainId = 4 ∧
          env.submitOk = true then
        if env.waitOk = true then
          if env.countOk = true then
            { w.ui with loading := false, numberOfWhitelisted := env.countValue }
          else { w.ui with loading := false }
        else { w.ui with loading := true }
      else w.ui := by
  cases hc : env.connectOk
  · simp [addAddressToWhitelist, gps_connectFail env w true hc, hc]
  · cases hn : env.networkOk
    · simp [addAddressToWhitelist, gps_networkFail env w true hc hn, hn]
    · by_cases h4 : env.chainId = 4
      · cases hs : env.submitOk
        · simp [addAddressToWhitelist, gps_ok env w true hc hn h4, hs]
        · cases hwk : env.waitOk
          · simp [addAddressToWhitelist, gps_ok env w true hc hn h4,
              hc, hn, h4, hs, hwk]
          · cases hk : env.countOk <;>
              simp [addAddressToWhitelist, gps_ok env w true hc hn h4,
                getNumberOfWhitelisted_ui, hc, hn, h4, hs, hwk, hk]
      · simp [addAddressToWhitelist, gps_wrongChain env w true hc hn h4, h4]

/-- `addAddressToWhitelist` establishes the connection handle whenever
the modal connection succeeds and never destroys one. -/
theorem addAddressToWhitelist_hasConnection (env : Env) (w : World) :
    (addAddressToWhitelist env w).1.hasConnection =
      (env.connectOk || w.hasConnection) := by
  cases hc : env.connectOk
  · simp [addAddressToWhitelist, gps_connectFail env w true hc]
  · cases hn : env.networkOk
    · simp [addAddressToWhitelist, gps_networkFail env w true hc hn]
    · by_cases h4 : env.chainId = 4
      · cases hs : env.submitOk
        · simp [addAddressToWhitelist, gps_ok env w true hc hn h4, hs]
        · cases hwk : env.waitOk <;>
            simp [addAddressToWhitelist, gps_ok env w true hc hn h4,
              getNumberOfWhitelisted_hasConnection, hc, hs, hwk]
      · simp [addAddressToWhitelist, gps_wrongChain env w true hc hn h4]

/-- C1 counterexample: with every call up to the submission succeeding
and `tx.wait()` failing, `addAddressToWhitelist` returns with `loading`
still true — the catch handler never resets it. -/
theorem C1_counterexample :
    envWaitFails.connectOk = true ∧ envWaitFails.networkOk = true ∧
    envWaitFails.chainId = 4 ∧ envWaitFails.submitOk = true ∧
    envWaitFails.waitOk = false ∧
    (addAddressToWhitelist envWaitFails initialWorld).1.ui.loading = true :=
  ⟨rfl, rfl, rfl, rfl, rfl, rfl⟩

/-- C1 amended: after `addAddressToWhitelist` completes, `loading` is
false whenever the submission path did not complete (then it keeps its
prior value) or the wait succeeded, but it is left true exactly when the
transaction was submitted and `tx.wait()` failed. -/
theorem C1_loadingAfterJoin (env : Env) (w : World) :
    (addAddressToWhitelist env w).1.ui.loading =
      if env.connectOk = true ∧ env.networkOk = true ∧ env.chainId = 4 ∧
          env.submitOk = true then
        (if env.waitOk = true then false else true)
      else w.ui.loading := by
  rw [addAddressToWhitelist_ui]
  by_cases hA : env.connectOk = true ∧ env.networkOk = true ∧
      env.chainId = 4 ∧ env.submitOk = true
  · cases hwk : env.waitOk
    · simp [hA, hwk]
    · by_cases hk : env.countOk = true <;> simp [hA, hwk, hk]
  · simp [hA]

/-- When the submission path of `addAddressToWhitelist` fails before the
transaction is submitted, the trace is the prompt, possibly the
wrong-network alert, and one logged error. -/
theorem addAddressToWhitelist_noSubmitTrace (env : Env) (w : World)
    (h : ¬(env.connectOk = true ∧ env.networkOk = true ∧ env.chainId = 4 ∧
      env.submitOk = true)) :
    ∃ e, (addAddressToWhitelist env w).2 =
      (if w.hasConnection then [] else [Event.prompt]) ++
      (if env.connectOk = true ∧ env.networkOk = true ∧ env.chainId ≠ 4 then
        [Event.alert "Change the network to Rinkeby"] else []) ++
      [Event.consoleError e] := by
  cases hc : env.connectOk
  · exact ⟨ErrorV.externalError,
      by simp [addAddressToWhitelist, gps_connectFail env w true hc, hc]⟩
  · cases hn : env.networkOk
    · exact ⟨ErrorV.externalError,
        by simp [addAddressToWhitelist, gps_networkFail env w true hc hn, hn]⟩
    · by_cases h4 : env.chainId = 4
      · cases hs : env.submitOk
        · exact ⟨ErrorV.externalError,
            by simp [addAddressToWhitelist, gps_ok env w true hc hn h4, hs, h4]⟩
        · exact absurd ⟨hc, hn, h4, hs⟩ h
      · exact ⟨ErrorV.wrongNetwork,
          by simp [addAddressToWhitelist, gps_wrongChain env w true hc hn h4,
            hc, hn, h4]⟩

/-- C5: when the submission itself fails — the user rejects the wallet
prompt, the network read fails, the chain is wrong, or the contract call
throws — `addAddressToWhitelist` catches and logs the error, never calls
`setLoading(true)`, and leaves the entire React state (in particular
`loading`) exactly as it was. -/
theorem C5_submissionFailure (env : Env) (w : World)
    (h : ¬(env.connectOk = true ∧ env.networkOk = true ∧ env.chainId = 4 ∧
      env.submitOk = true)) :
    (addAddressToWhitelist env w).1.ui = w.ui ∧
    Event.setLoading true ∉ (addAddressToWhitelist env w).2 ∧
    ∃ e, Event.consoleError e ∈ (addAddressToWhitelist env w).2 := by
  obtain ⟨e, he⟩ := addAddressToWhitelist_noSubmitTrace env w h
  refine ⟨by rw [addAddressToWhitelist_ui, if_neg h], ?_, ⟨e, ?_⟩⟩
  · rw [he]
    by_cases hA : w.hasConnection = true <;>
      by_cases hB : env.connectOk = true ∧ env.networkOk = true ∧
        env.chainId ≠ 4 <;>
      simp [hA, hB]
  · rw [he]
    simp

/-- C5 witness: a rejected wallet prompt from the initial world leaves
the React state untouched with `loading` still false. -/
theorem C5_witness :
    (addAddressToWhitelist envRejected initialWorld).1.ui = initialWorld.ui ∧
    Event.setLoading true ∉ (addAddressToWhitelist envRejected initialWorld).2 := by
  have h := C5_submissionFailure envRejected initialWorld (by decide)
  exact ⟨h.1, h.2.1⟩

/-- Every failing execution of `getNumberOfWhitelisted` logs its error to
the console. -/
theorem getNumberOfWhitelisted_failLog (env : Env) (w : World)
    (h : ¬(env.connectOk = true ∧ env.networkOk = true ∧ env.chainId = 4 ∧
      env.countOk = true)) :
    ∃ e, Event.consoleError e ∈ (getNumberOfWhitelisted env w).2 := by
  cases hc : env.connectOk
  · exact ⟨ErrorV.externalError,
      by simp [getNumberOfWhitelisted, gps_connectFail env w false hc]⟩
  · cases hn : env.networkOk
    · exact ⟨ErrorV.externalError,
        by simp [getNumberOfWhitelisted, gps_networkFail env w false hc hn]⟩
    · by_cases h4 : env.chainId = 4
      · cases hk : env.countOk
        · exact ⟨ErrorV.externalError,
            by simp [getNumberOfWhitelisted, gps_ok env w false hc hn h4, hk]⟩
        · exact absurd ⟨hc, hn, h4, hk⟩ h
      · exact ⟨ErrorV.wrongNetwork,
          by simp [getNumberOfWhitelisted, gps_wrongChain env w false hc hn h4]⟩

/-- Every failing execution of `checkIfAddressInWhitelist` logs its error
to the console. -/
theorem checkIfAddressInWhitelist_failLog (env : Env) (w : World)
    (h : ¬(env.connectOk = true ∧ env.networkOk = true ∧ env.chainId = 4 ∧
      env.getAddressOk = true ∧ env.membershipOk = true)) :
    ∃ e, Event.consoleError e ∈ (checkIfAddressInWhitelist env w).2 := by
  cases hc : env.connectOk
  · exact ⟨ErrorV.externalError,
      by simp [checkIfAddressInWhitelist, gps_connectFail env w true hc]⟩
  · cases hn : env.networkOk
    · exact ⟨ErrorV.externalError,
        by simp [checkIfAddressInWhitelist, gps_networkFail env w true hc hn]⟩
    · by_cases h4 : env.chainId = 4
      · cases ha : env.getAddressOk
        · exact ⟨ErrorV.externalError,
            by simp [checkIfAddressInWhitelist, gps_ok env w true hc hn h4, ha]⟩
        · cases hm : env.membershipOk
          · exact ⟨ErrorV.externalError,
              by simp [checkIfAddressInWhitelist, gps_ok env w true hc hn h4,
                ha, hm]⟩
          · exact absurd ⟨hc, hn, h4, ha, hm⟩ h
      · exact ⟨ErrorV.wrongNetwork,
          by simp [checkIfAddressInWhitelist, gps_wrongChain env w true hc hn h4]⟩

/-- C3: a failing count read and a failing membership read each log
their error and leave the entire React state — in particular
`numberOfWhitelisted` and `joinedWhitelist` — exactly at its prior
value: no crash and no partial update. -/
theorem C3_failedReadsNoChange (env : Env) (w : World)
    (hcount : ¬(env.connectOk = true ∧ env.networkOk = true ∧
      env.chainId = 4 ∧ env.countOk = true))
    (hmem : ¬(env.connectOk = true ∧ env.networkOk = true ∧
      env.chainId = 4 ∧ env.getAddressOk = true ∧ env.membershipOk = true)) :
    ((getNumberOfWhitelisted env w).1.ui = w.ui ∧
      ∃ e, Event.consoleError e ∈ (getNumberOfWhitelisted env w).2) ∧
    ((checkIfAddressInWhitelist env w).1.ui = w.ui ∧
      ∃ e, Event.consoleError e ∈ (checkIfAddressInWhitelist env w).2) :=
  ⟨⟨by rw [getNumberOfWhitelisted_ui, if_neg hcount],
    getNumberOfWhitelisted_failLog env w hcount⟩,
   ⟨by rw [checkIfAddressInWhitelist_ui, if_neg hmem],
    checkIfAddressInWhitelist_failLog env w hmem⟩⟩

/-- C3 witness: with the connection rejected, both reads return from the
initial world with the React state untouched. -/
theorem C3_witness :
    (getNumberOfWhitelisted envRejected initialWorld).1.ui = initialWorld.ui ∧
    (checkIfAddressInWhitelist envRejected initialWorld).1.ui = initialWorld.ui := by
  have h := C3_failedReadsNoChange envRejected initialWorld (by decide) (by decide)
  exact ⟨h.1.1, h.2.1⟩

/-- C6: a fully successful join performs, in order: the submission, then
`setLoading(true)`, then the wait for one confirmation, then
`setLoading(false)`, and then the whole of `getNumberOfWhitelisted`,
whose result is the result of the operation. -/
theorem C6_successSequence (env : Env) (w : World)
    (hc : env.connectOk = true) (hn : env.networkOk = true)
    (h4 : env.chainId = 4) (hs : env.submitOk = true)
    (hw : env.waitOk = true) :
    addAddressToWhitelist env w =
      ((getNumberOfWhitelisted env
          { ui := { w.ui with loading := false }, hasConnection := true }).1,
        (if w.hasConnection then [] else [Event.prompt]) ++
          [Event.submit, Event.setLoading true, Event.txWait,
            Event.setLoading false] ++
          (getNumberOfWhitelisted env
            { ui := { w.ui with loading := false }, hasConnection := true }).2) := by
  simp [addAddressToWhitelist, gps_ok env w true hc hn h4, hs, hw]

/-- C6 witness: the successful join sequence evaluated from the initial
world in the all-success environment. -/
theorem C6_witness :
    addAddressToWhitelist envAllOk initialWorld =
      ((getNumberOfWhitelisted envAllOk
          { ui := { initialWorld.ui with loading := false },
            hasConnection := true }).1,
        [Event.prompt] ++
          [Event.submit, Event.setLoading true, Event.txWait,
            Event.setLoading false] ++
          (getNumberOfWhitelisted envAllOk
            { ui := { initialWorld.ui with loading := false },
              hasConnection := true }).2) :=
  C6_successSequence envAllOk initialWorld rfl rfl rfl rfl rfl

/-- C8: a successful membership refresh obtains a signing accessor, reads
the caller's own address, queries the contract's membership predicate for
exactly that address, and sets `joinedWhitelist` to the returned
boolean. -/
theorem C8_membershipRefresh (env : Env) (w : World)
    (hc : env.connectOk = true) (hn : env.networkOk = true)
    (h4 : env.chainId = 4) (ha : env.getAddressOk = true)
    (hm : env.membershipOk = true) :
    (getProviderOrSigner env w true).1 = Except.ok ChainAccessor.signing ∧
    Event.readAddress env.callerAddress ∈ (checkIfAddressInWhitelist env w).2 ∧
    Event.queryMembership env.callerAddress ∈
      (checkIfAddressInWhitelist env w).2 ∧
    Event.setJoinedWhitelist (env.membership env.callerAddress) ∈
      (checkIfAddressInWhitelist env w).2 ∧
    (checkIfAddressInWhitelist env w).1.ui.joinedWhitelist =
      env.membership env.callerAddress := by
  have hg := gps_ok env w true hc hn h4
  refine ⟨by rw [hg]; rfl, ?_, ?_, ?_, ?_⟩ <;>
    simp [checkIfAddressInWhitelist, hg, ha, hm]

/-- C8 witness: the membership refresh in the all-success environment
queries the caller's address and stores the contract's answer. -/
theorem C8_witness :
    Event.queryMembership "0xabc" ∈
      (checkIfAddressInWhitelist envAllOk initialWorld).2 ∧
    (checkIfAddressInWhitelist envAllOk initialWorld).1.ui.joinedWhitelist =
      false := by
  have h := C8_membershipRefresh envAllOk initialWorld rfl rfl rfl rfl rfl
  exact ⟨h.2.2.1, h.2.2.2.2⟩

/-- Every event of a `getNumberOfWhitelisted` trace is a prompt, the
wrong-network alert, a logged error, or the count setter. -/
theorem getNumberOfWhitelisted_traceShape (env : Env) (w : World) (x : Event)
    (hx : x ∈ (getNumberOfWhitelisted env w).2) :
    x = Event.prompt ∨ x = Event.alert "Change the network to Rinkeby" ∨
    (∃ e, x = Event.consoleError e) ∨
    x = Event.setNumberOfWhitelisted env.countValue := by
  by_cases hw : w.hasConnection = true <;>
  cases hc : env.connectOk <;>
  cases hn : env.networkOk <;>
  by_cases h4 : env.chainId = 4 <;>
  cases hk : env.countOk <;>
  simp_all [getNumberOfWhitelisted, getProviderOrSigner] <;>
  aesop

/-- Every event of an `addAddressToWhitelist` trace is a prompt, the
wrong-network alert, a logged error, the submission, the wait, a
`setLoading` call, or the count setter — never a membership query or a
`setJoinedWhitelist` call. -/
theorem addAddressToWhitelist_successTrace (env : Env) (w : World)
    (hc : env.connectOk = true) (hn : env.networkOk = true)
    (h4 : env.chainId = 4) (hs : env.submitOk = true)
    (hw : env.waitOk = true) :
    addAddressToWhitelist env w =
      ((getNumberOfWhitelisted env
          { ui := { w.ui with loading := false }, hasConnection := true }).1,
        (if w.hasConnection then [] else [Event.prompt]) ++
          [Event.submit, Event.setLoading true, Event.txWait,
            Event.setLoading false] ++
          (getNumberOfWhitelisted env
            { ui := { w.ui with loading := false }, hasConnection := true }).2) := by
  simp [addAddressToWhitelist, gps_ok env w true hc hn h4, hs, hw]

theorem addAddressToWhitelist_traceShape (env : Env) (w : World) (x : Event)
    (hx : x ∈ (addAddressToWhitelist env w).2) :
    x = Event.prompt ∨ x = Event.alert "Change the network to Rinkeby" ∨
    (∃ e, x = Event.consoleError e) ∨ x = Event.submit ∨ x = Event.txWait ∨
    (∃ b, x = Event.setLoading b) ∨
    x = Event.setNumberOfWhitelisted env.countValue := by
  cases hc : env.connectOk
  · simp only [addAddressToWhitelist, gps_connectFail env w true hc] at hx
    simp at hx
    aesop
  · cases hn : env.networkOk
    · simp only [addAddressToWhitelist, gps_networkFail env w true hc hn] at hx
      simp at hx
      aesop
    · by_cases h4 : env.chainId = 4
      · cases hs : env.submitOk
        · simp only [addAddressToWhitelist, gps_ok env w true hc hn h4] at hx
          simp [hs] at hx
          aesop
        · cases hwk : env.waitOk
          · simp only [addAddressToWhitelist, gps_ok env w true hc hn h4] at hx
            simp [hs, hwk] at hx
            aesop
          · rw [addAddressToWhitelist_successTrace env w hc hn h4 hs hwk] at hx
            have hsub := getNumberOfWhitelisted_traceShape env
              { ui := { w.ui with loading := false }, hasConnection := true } x
            simp at hx hsub
            aesop
      · simp only [addAddressToWhitelist, gps_wrongChain env w true hc hn h4] at hx
        simp at hx
        aesop

/-- C10: `addAddressToWhitelist` never touches `joinedWhitelist`: it
leaves the field at its prior value, never calls `setJoinedWhitelist`,
and never re-queries the membership predicate, so a user who has just
joined still shows `joinedWhitelist == false` until the connect sequence
runs again. -/
theorem C10_joinLeavesMembership (env : Env) (w : World) :
    (addAddressToWhitelist env w).1.ui.joinedWhitelist =
      w.ui.joinedWhitelist ∧
    (∀ b, Event.setJoinedWhitelist b ∉ (addAddressToWhitelist env w).2) ∧
    (∀ a, Event.queryMembership a ∉ (addAddressToWhitelist env w).2) := by
  refine ⟨?_, ?_, ?_⟩
  · rw [addAddressToWhitelist_ui]
    by_cases hA : env.connectOk = true ∧ env.networkOk = true ∧
        env.chainId = 4 ∧ env.submitOk = true <;>
      by_cases hB : env.waitOk = true <;>
      by_cases hk : env.countOk = true <;>
      simp [hA, hB, hk]
  · intro b hmem
    rcases addAddressToWhitelist_traceShape env w _ hmem with
      h | h | ⟨e, h⟩ | h | h | ⟨c, h⟩ | h <;> cases h
  · intro a hmem
    rcases addAddressToWhitelist_traceShape env w _ hmem with
      h | h | ⟨e, h⟩ | h | h | ⟨c, h⟩ | h <;> cases h

/-- Once a connection handle exists, a count refresh never prompts the
wallet again. -/
theorem getNumberOfWhitelisted_noPrompt (env : Env) (w : World)
    (h : w.hasConnection = true) :
    Event.prompt ∉ (getNumberOfWhitelisted env w).2 := by
  cases hc : env.connectOk <;> cases hn : env.networkOk <;>
    by_cases h4 : env.chainId = 4 <;> cases hk : env.countOk <;>
    simp_all [getNumberOfWhitelisted, getProviderOrSigner]

/-- Once a connection handle exists, a membership refresh never prompts
the wallet again. -/
theorem checkIfAddressInWhitelist_noPrompt (env : Env) (w : World)
    (h : w.hasConnection = true) :
    Event.prompt ∉ (checkIfAddressInWhitelist env w).2 := by
  cases hc : env.connectOk <;> cases hn : env.networkOk <;>
    by_cases h4 : env.chainId = 4 <;> cases ha : env.getAddressOk <;>
    cases hm : env.membershipOk <;>
    simp_all [checkIfAddressInWhitelist, getProviderOrSigner]

/-- Once a connection handle exists, a join never prompts the wallet
again. -/
theorem addAddressToWhitelist_noPrompt (env : Env) (w : World)
    (h : w.hasConnection = true) :
    Event.prompt ∉ (addAddressToWhitelist env w).2 := by
  cases hc : env.connectOk <;> cases hn : env.networkOk <;>
    by_cases h4 : env.chainId = 4 <;> cases hs : env.submitOk <;>
    cases hwk : env.waitOk <;> cases hk : env.countOk <;>
    simp_all [addAddressToWhitelist, getNumberOfWhitelisted, getProviderOrSigner]

/-- Once a connection handle exists, the connect sequence never prompts
the wallet again. -/
theorem connectWallet_noPrompt (env : Env) (w : World)
    (h : w.hasConnection = true) :
    Event.prompt ∉ (connectWallet env w).2 := by
  cases hc : env.connectOk <;> cases hn : env.networkOk <;>
    by_cases h4 : env.chainId = 4 <;> cases ha : env.getAddressOk <;>
    cases hm : env.membershipOk <;> cases hk : env.countOk <;>
    simp_all [connectWallet, checkIfAddressInWhitelist, getNumberOfWhitelisted,
      getProviderOrSigner]

/-- A count refresh never changes `walletConnected`. -/
theorem getNumberOfWhitelisted_walletConnected (env : Env) (w : World) :
    (getNumberOfWhitelisted env w).1.ui.walletConnected =
      w.ui.walletConnected := by
  rw [getNumberOfWhitelisted_ui]
  by_cases hA : env.connectOk = true ∧ env.networkOk = true ∧
      env.chainId = 4 ∧ env.countOk = true <;> simp [hA]

/-- A membership refresh never changes `walletConnected`. -/
theorem checkIfAddressInWhitelist_walletConnected (env : Env) (w : World) :
    (checkIfAddressInWhitelist env w).1.ui.walletConnected =
      w.ui.walletConnected := by
  rw [checkIfAddressInWhitelist_ui]
  by_cases hA : env.connectOk = true ∧ env.networkOk = true ∧
      env.chainId = 4 ∧ env.getAddressOk = true ∧ env.membershipOk = true <;>
    simp [hA]

/-- A join never changes `walletConnected`. -/
theorem addAddressToWhitelist_walletConnected (env : Env) (w : World) :
    (addAddressToWhitelist env w).1.ui.walletConnected =
      w.ui.walletConnected := by
  rw [addAddressToWhitelist_ui]
  by_cases hA : env.connectOk = true ∧ env.networkOk = true ∧
      env.chainId = 4 ∧ env.submitOk = true <;>
    by_cases hB : env.waitOk = true <;>
    by_cases hk : env.countOk = true <;>
    simp [hA, hB, hk]

/-- `connectWallet` establishes the connection handle whenever the modal
connection succeeds and never destroys one. -/
theorem connectWallet_hasConnection (env : Env) (w : World) :
    (connectWallet env w).1.hasConnection =
      (env.connectOk || w.hasConnection) := by
  cases hc : env.connectOk
  · simp [connectWallet, gps_connectFail env w false hc]
  · cases hn : env.networkOk
    · simp [connectWallet, gps_networkFail env w false hc hn]
    · by_cases h4 : env.chainId = 4
      · simp [connectWallet, gps_ok env w false hc hn h4, hc,
          getNumberOfWhitelisted_hasConnection,
          checkIfAddressInWhitelist_hasConnection]
      · simp [connectWallet, gps_wrongChain env w false hc hn h4]

/-- `connectWallet` sets `walletConnected` to true exactly when the
connection and network read succeed on chain 4, and otherwise leaves it
at its prior value. -/
theorem connectWallet_walletConnected (env : Env) (w : World) :
    (connectWallet env w).1.ui.walletConnected =
      (if env.connectOk = true ∧ env.networkOk = true ∧ env.chainId = 4 then
        true else w.ui.walletConnected) := by
  cases hc : env.connectOk
  · simp [connectWallet, gps_connectFail env w false hc, hc]
  · cases hn : env.networkOk
    · simp [connectWallet, gps_networkFail env w false hc hn, hn]
    · by_cases h4 : env.chainId = 4
      · simp [connectWallet, gps_ok env w false hc hn h4, hc, hn, h4,
          getNumberOfWhitelisted_walletConnected,
          checkIfAddressInWhitelist_walletConnected]
      · simp [connectWallet, gps_wrongChain env w false hc hn h4, h4]

/-- If the connection-implies-handle invariant holds before a
`connectWallet` run, it holds after. -/
theorem connectWallet_inv (env : Env) (u : World)
    (ih : u.ui.walletConnected = true → u.hasConnection = true)
    (hc : (connectWallet env u).1.ui.walletConnected = true) :
    (connectWallet env u).1.hasConnection = true := by
  rw [connectWallet_hasConnection]
  rw [connectWallet_walletConnected] at hc
  by_cases hA : env.connectOk = true ∧ env.networkOk = true ∧ env.chainId = 4
  · simp [hA.1]
  · rw [if_neg hA] at hc
    simp [ih hc]

/-- If the connection-implies-handle invariant holds before a join, it
holds after. -/
theorem addAddressToWhitelist_inv (env : Env) (u : World)
    (ih : u.ui.walletConnected = true → u.hasConnection = true)
    (hc : (addAddressToWhitelist env u).1.ui.walletConnected = true) :
    (addAddressToWhitelist env u).1.hasConnection = true := by
  rw [addAddressToWhitelist_hasConnection]
  rw [addAddressToWhitelist_walletConnected] at hc
  simp [ih hc]

/-- In every reachable world, `walletConnected` is true only if a wallet
connection handle exists. -/
theorem reachable_inv (w : World) (hr : Reachable w) :
    w.ui.walletConnected = true → w.hasConnection = true := by
  induction hr with
  | init => intro hc; exact absurd hc (by decide)
  | step op env hr ih =>
      rename_i u
      intro hc
      cases op with
      | effectRun =>
          by_cases hwc : u.ui.walletConnected = true
          · simp only [runOp, hwc] at hc ⊢
            simp at hc ⊢
            exact ih hwc
          · simp only [runOp] at hc ⊢
            simp [hwc] at hc ⊢
            exact connectWallet_inv env u ih hc
      | click =>
          rcases hv : variantAction (renderButton u.ui) with _ | a
          · simp only [runOp, hv] at hc ⊢
            exact ih hc
          · cases a
            · simp only [runOp, hv] at hc ⊢
              exact connectWallet_inv env u ih hc
            · simp only [runOp, hv] at hc ⊢
              exact addAddressToWhitelist_inv env u ih hc

/-- Once a connection handle exists, no page operation emits a wallet
prompt. -/
theorem runOp_noPrompt (op : Op) (env : Env) (w : World)
    (h : w.hasConnection = true) :
    Event.prompt ∉ (runOp op env w).2 := by
  cases op with
  | effectRun =>
      by_cases hwc : w.ui.walletConnected = true
      · simp [runOp, hwc]
      · simp only [runOp]
        simp [hwc, connectWallet_noPrompt env w h]
  | click =>
      rcases hv : variantAction (renderButton w.ui) with _ | a
      · simp [runOp, hv]
      · cases a
        · simp [runOp, hv, connectWallet_noPrompt env w h]
        · simp [runOp, hv, addAddressToWhitelist_noPrompt env w h]

/-- C9: in every reachable world where `walletConnected` is true, no
page operation emits a wallet prompt, the mount effect is a no-op (the
connect sequence is not re-run), and the rendered button never carries
the `connectWallet` handler. -/
theorem C9_noRedundantConnect (w : World) (hr : Reachable w)
    (hc : w.ui.walletConnected = true) :
    (∀ op env, Event.prompt ∉ (runOp op env w).2) ∧
    (∀ env, runOp Op.effectRun env w = (w, [])) ∧
    variantAction (renderButton w.ui) ≠ some UserAction.runConnectWallet := by
  have hh := reachable_inv w hr hc
  refine ⟨fun op env => runOp_noPrompt op env w hh,
    fun env => by simp [runOp, hc], ?_⟩
  by_cases hj : w.ui.joinedWhitelist = true <;>
    by_cases hl : w.ui.loading = true <;>
    simp [renderButton, variantAction, hc, hj, hl]

/-- The world after the mount effect succeeds from the initial world in
the all-success environment. -/
def worldAfterMount : World :=
  (runOp Op.effectRun envAllOk initialWorld).1

/-- C9 witness: after a successful mount, the connected world is
reachable and a subsequent click and effect run emit no prompt and
re-run nothing. -/
theorem C9_witness :
    worldAfterMount.ui.walletConnected = true ∧
    Event.prompt ∉ (runOp Op.click envAllOk worldAfterMount).2 ∧
    runOp Op.effectRun envAllOk worldAfterMount = (worldAfterMount, []) := by
  have h := C9_noRedundantConnect worldAfterMount
    (Reachable.step Op.effectRun envAllOk Reachable.init) rfl
  exact ⟨rfl, h.1 Op.click envAllOk, h.2.1 envAllOk⟩
